import Mathlib

/-!
Verification development for the New_Fetch news-enrichment pipeline.

The development shallowly embeds the two Python modules that form the core
of the repository:

* ai_processor.py — analyze_article (prompting a language model and parsing
  its semi-structured text reply into a summary / sentiment / impact-score
  record) and batch_analyze_articles (the sequential batch orchestrator);
* news_fetcher.py — fetch_news (normalising the upstream search-service
  JSON payload into article records and absorbing every network failure).

Text is modelled as List Char.  The outcome of each external call (model
configuration, model invocation, network request) is passed in explicitly
as a value of a small outcome type, so that every control-flow branch of
the Python code is represented.  The regular-expression searches of the
source are embedded as executable character-list scanners that mirror the
leftmost-search and backtracking behaviour of the three patterns used by
the code.
-/

namespace NewFetch

/-- The whitespace predicate of Python regular expressions and of
str.strip, restricted to the ASCII whitespace characters. -/
def pyIsSpace (c : Char) : Bool :=
  c == ' ' || c == '\t' || c == '\n' || c == '\r' || c == '\x0b' || c == '\x0c'

/-- The word-character class of the regex escape for words
(ASCII letters, digits and the underscore). -/
def pyIsWordChar (c : Char) : Bool :=
  c.isAlpha || c.isDigit || c == '_'

/-- Decimal digit characters, the regex digit class. -/
def pyIsDigit (c : Char) : Bool := c.isDigit

/-- Python str.strip: remove whitespace from both ends. -/
def pyStrip (s : List Char) : List Char :=
  ((s.dropWhile pyIsSpace).reverse.dropWhile pyIsSpace).reverse

/-- Python str.capitalize: first character upper-cased, the rest
lower-cased. -/
def pyCapitalize : List Char → List Char
  | [] => []
  | c :: cs => c.toUpper :: cs.map Char.toLower

/-- Case-insensitive prefix test: the marker (given in lower case) matches
the beginning of the text when each text character lower-cases to the
corresponding marker character. -/
def ciStarts : List Char → List Char → Bool
  | [], _ => true
  | _ :: _, [] => false
  | m :: ms, t :: ts => (t.toLower == m) && ciStarts ms ts

/-- The case-insensitive comparison of the marker against the text hits a
definite mismatch before running out of text characters; such a mismatch
cannot be repaired by extending the text on the right. -/
def ciFailsWithin : List Char → List Char → Bool
  | [], _ => false
  | _ :: _, [] => false
  | mc :: ms, t :: ts => if t.toLower == mc then ciFailsWithin ms ts else true

/-- Case-insensitive containment: some suffix of the text starts with the
marker. -/
def containsCI (m : List Char) : List Char → Bool
  | [] => ciStarts m []
  | c :: rest => ciStarts m (c :: rest) || containsCI m rest

/-- Leftmost regex search: try the attempt function at every start
position from the left and return the first hit.  This mirrors how
re.search scans the subject string. -/
def reSearch (attempt : List Char → Option α) : List Char → Option α
  | [] => none
  | c :: rest =>
    match attempt (c :: rest) with
    | some v => some v
    | none => reSearch attempt rest

/-- Collect at least one character and keep extending the capture until
the stop condition holds on the remaining text.  This is the non-greedy
one-or-more capture group followed by a lookahead. -/
def grabUntil (stop : List Char → Bool) : List Char → List Char
  | [] => []
  | c :: rest => if stop rest then [c] else c :: grabUntil stop rest

def summaryMarker : List Char := "summary:".toList

def sentimentMarker : List Char := "sentiment:".toList

/-- The lookahead of the summary pattern: the remaining text starts with
the sentiment marker, or the match is at the end of the subject (a $
anchor, which also matches just before one final newline). -/
def lookaheadStop (xs : List Char) : Bool :=
  ciStarts sentimentMarker xs || xs.isEmpty || decide (xs = ['\n'])

/-- The capture performed after the summary marker: optional whitespace,
then a non-greedy capture of at least one character up to the lookahead.
When everything after the whitespace run is empty the engine backtracks
the whitespace by one character, so the capture becomes that final
whitespace character (this branch is unreachable on stripped subjects,
which never end in whitespace, but is kept for fidelity to the regex
semantics). -/
def summaryCapture (u : List Char) : Option (List Char) :=
  if u.isEmpty then none
  else
    let r := u.dropWhile pyIsSpace
    if r.isEmpty then
      some (grabUntil lookaheadStop (u.drop ((u.takeWhile pyIsSpace).length - 1)))
    else some (grabUntil lookaheadStop r)

/-- One attempted match of the summary pattern of ai_processor.py line 59,
at a fixed start position: the literal marker followed by the capture. -/
def attemptSummary (s : List Char) : Option (List Char) :=
  if ciStarts summaryMarker s then
    summaryCapture (s.drop summaryMarker.length)
  else none

/-- One attempted match of the sentiment pattern of ai_processor.py line
63 at a fixed start position: the literal marker, optional whitespace,
then a maximal nonempty run of word characters. -/
def attemptSentiment (s : List Char) : Option (List Char) :=
  if ciStarts sentimentMarker s then
    let w := ((s.drop sentimentMarker.length).dropWhile pyIsSpace).takeWhile pyIsWordChar
    if w.isEmpty then none else some w
  else none

/-- The separator class between the two words of the impact-score marker:
an underscore or a space. -/
def impactSep (c : Char) : Bool := c == '_' || c == ' '

/-- One attempted match of the impact-score pattern of ai_processor.py
line 71 at a fixed start position: the word impact, an underscore or
space, the word score with a colon, optional whitespace, then a maximal
nonempty digit run. -/
def attemptImpact (s : List Char) : Option (List Char) :=
  if ciStarts ("impact".toList) s then
    match s.drop 6 with
    | [] => none
    | sep :: rest2 =>
      if impactSep sep && ciStarts ("score:".toList) rest2 then
        let d := ((rest2.drop 6).dropWhile pyIsSpace).takeWhile pyIsDigit
        if d.isEmpty then none else some d
      else none
  else none

/-- Decimal value of a digit run, as produced by the int conversion. -/
def digitsToNat (ds : List Char) : Nat :=
  ds.foldl (fun n c => n * 10 + (c.toNat - 48)) 0

/-- The analysis record produced by the enrichment engine: summary text,
sentiment label and impact score. -/
structure AnalysisResult where
  summary : List Char
  sentiment : List Char
  impact_score : Nat
deriving DecidableEq

/-- The four accepted lower-case sentiment words of ai_processor.py
line 67. -/
def sentimentList : List (List Char) :=
  ["positive".toList, "negative".toList, "tense".toList, "neutral".toList]

/-- Summary field parsed from the (already stripped) model reply:
the captured group stripped of whitespace, or the literal fallback. -/
def summaryOf (t : List Char) : List Char :=
  match reSearch attemptSummary t with
  | some g => pyStrip g
  | none => "Summary not available.".toList

/-- The sentiment word of the model reply: the captured word, stripped
and lower-cased, or the default neutral when the marker is absent. -/
def sentimentWordOf (t : List Char) : List Char :=
  match reSearch attemptSentiment t with
  | some w => (pyStrip w).map Char.toLower
  | none => "neutral".toList

/-- Sentiment field parsed from the model reply: the sentiment word,
forced to neutral when unrecognised, then capitalized for display. -/
def sentimentOf (t : List Char) : List Char :=
  pyCapitalize (if sentimentWordOf t ∈ sentimentList then sentimentWordOf t
    else "neutral".toList)

/-- Impact-score field parsed from the model reply: the captured digit
run as an integer, 5 when absent, clamped into the range 1 to 10. -/
def impactOf (t : List Char) : Nat :=
  max 1 (min 10 (match reSearch attemptImpact t with
    | some d => digitsToNat d
    | none => 5))

/-- Parsing of the model reply, ai_processor.py lines 56 to 81
(the subject is the stripped reply text). -/
def parseAnalysis (t : List Char) : AnalysisResult :=
  { summary := summaryOf t, sentiment := sentimentOf t, impact_score := impactOf t }

/-- A normalised article record, as produced by fetch_news.  The analysis
of an article reads its title and description, matching the access pattern
of ai_processor.py (which indexes exactly the title and description
keys). -/
structure Article where
  title : List Char
  description : List Char
  url : List Char
  source : List Char
  published_at : List Char
deriving DecidableEq

/-- Outcome of the model-configuration step (ai_processor.py lines 19
to 24). -/
inductive ConfigOutcome
  | ok
  | failure (msg : List Char)
deriving DecidableEq

/-- Outcome of the model invocation: the call raises, or it returns the
reply text (an empty list models a falsy reply text). -/
inductive ModelOutcome
  | raise (msg : List Char)
  | reply (text : List Char)
deriving DecidableEq

/-- analyze_article of ai_processor.py.  The configuration outcome and the
model-call outcome are passed in explicitly; every branch mirrors the
source: configuration failure returns none, a raising model call returns
the degraded record built from the article description, an empty reply
returns the fixed default record, and otherwise the stripped reply text is
parsed. -/
def analyze_article (article : Article) (config : ConfigOutcome)
    (model : ModelOutcome) : Option AnalysisResult :=
  match config with
  | .failure _ => none
  | .ok =>
    match model with
    | .raise _ =>
      some { summary := article.description.take 200 ++ "...".toList,
             sentiment := "Neutral".toList,
             impact_score := 5 }
    | .reply text =>
      if text.isEmpty then
        some { summary := "Analysis unavailable.".toList,
               sentiment := "neutral".toList,
               impact_score := 5 }
      else
        some (parseAnalysis (pyStrip text))

/-- An enriched article: the flat merge of the article fields with the
analysis fields (no key collision is possible). -/
structure EnrichedArticle where
  title : List Char
  description : List Char
  url : List Char
  source : List Char
  published_at : List Char
  summary : List Char
  sentiment : List Char
  impact_score : Nat
deriving DecidableEq

/-- The dictionary merge of an article with its analysis record. -/
def mergeArticle (a : Article) (r : AnalysisResult) : EnrichedArticle :=
  { title := a.title, description := a.description, url := a.url,
    source := a.source, published_at := a.published_at,
    summary := r.summary, sentiment := r.sentiment,
    impact_score := r.impact_score }

/-- One batch entry: an article together with the outcomes of the external
calls made while analysing it. -/
structure BatchInput where
  article : Article
  config : ConfigOutcome
  model : ModelOutcome
deriving DecidableEq

/-- batch_analyze_articles of ai_processor.py: analyse each entry in
order, appending the merged record whenever the analysis is non-none. -/
def batch_analyze_articles : List BatchInput → List EnrichedArticle
  | [] => []
  | i :: rest =>
    match analyze_article i.article i.config i.model with
    | some r => mergeArticle i.article r :: batch_analyze_articles rest
    | none => batch_analyze_articles rest

/-- One result item of the upstream search-service payload.  Each field is
either absent (none) or carries its string value; the JSON values of the
items are strings wherever present. -/
structure NewsItem where
  title : Option (List Char)
  description : Option (List Char)
  content : Option (List Char)
  link : Option (List Char)
  source_id : Option (List Char)
  pubDate : Option (List Char)
deriving DecidableEq

/-- The parsed upstream response body: the status discriminator, the
result items, and the message carried by the results object when the
upstream reports an error (news_fetcher.py line 39 reads that message
from the results field of a non-success payload). -/
structure NewsData where
  status : Option (List Char)
  results : List NewsItem
  error_message : Option (List Char)
deriving DecidableEq

/-- The outcome of the network request issued by fetch_news: a timeout, a
request-layer failure, any other failure while obtaining or decoding the
response, or a decoded JSON body. -/
inductive FetchOutcome
  | timeout
  | requestError (msg : List Char)
  | otherError (msg : List Char)
  | success (data : NewsData)
deriving DecidableEq

/-- A diagnostic message reported to the caller through the user-facing
reporting channel. -/
inductive Diagnostic
  | apiError (msg : List Char)
  | timedOut
  | networkError (msg : List Char)
  | unexpectedError (msg : List Char)
deriving DecidableEq

/-- Python truthiness of an optional string field: present and
nonempty. -/
def truthy : Option (List Char) → Bool
  | none => false
  | some s => !s.isEmpty

/-- Field normalisation of one upstream item, news_fetcher.py lines 47
to 53: defaults for absent fields, and the description falls back to the
body content truncated to 300 characters when the description itself is
falsy. -/
def itemToArticle (item : NewsItem) : Article :=
  { title := item.title.getD ("Untitled".toList),
    description :=
      if truthy item.description then item.description.getD []
      else (item.content.getD []).take 300,
    url := item.link.getD ("#".toList),
    source := item.source_id.getD ("Unknown".toList),
    published_at := item.pubDate.getD [] }

/-- fetch_news of news_fetcher.py.  The network outcome is passed in
explicitly.  The function returns the article list together with the list
of diagnostics emitted; every failure branch returns the empty list and
one diagnostic, and the success branch keeps exactly the items that have a
truthy title and a truthy description or content. -/
def fetch_news (outcome : FetchOutcome) : List Article × List Diagnostic :=
  match outcome with
  | .success data =>
    if data.status = some ("success".toList) then
      (data.results.filterMap fun item =>
        if truthy item.title && (truthy item.description || truthy item.content)
        then some (itemToArticle item) else none, [])
    else
      ([], [Diagnostic.apiError (data.error_message.getD ("Unknown error".toList))])
  | .timeout => ([], [Diagnostic.timedOut])
  | .requestError m => ([], [Diagnostic.networkError m])
  | .otherError m => ([], [Diagnostic.unexpectedError m])

/-- The four canonical capitalized sentiment labels of the data model. -/
def canonicalSentiments : List (List Char) :=
  ["Positive".toList, "Negative".toList, "Tense".toList, "Neutral".toList]

/-- Whether the model reply contains a recognisable sentiment word: a
sentiment-marker match whose captured word, lower-cased, is one of the
four accepted words. -/
def sentimentWordRecognized (t : List Char) : Bool :=
  match reSearch attemptSentiment t with
  | none => false
  | some w => decide ((pyStrip w).map Char.toLower ∈ sentimentList)

/-- A sample article used to instantiate the claim theorems at concrete
inputs. -/
def sampleArticle : Article :=
  { title := "Summit talks".toList,
    description := "Leaders met to discuss the new trade pact.".toList,
    url := "http://example.org/a".toList,
    source := "wire".toList,
    published_at := "2025-01-01".toList }

example : sentimentOf ("SENTIMENT: Positive".toList) = "Positive".toList := by decide
example : summaryOf ("SUMMARY: X. Y.\nSENTIMENT: Positive".toList) = "X. Y.".toList := by decide
example : impactOf ("IMPACT_SCORE: 12".toList) = 10 := by decide
example : impactOf ("IMPACT SCORE: 0".toList) = 1 := by decide
example : impactOf ("nothing here".toList) = 5 := by decide

/-- A case-insensitive prefix match survives extending the text on the
right. -/
lemma ciStarts_append_of (m s r : List Char) (h : ciStarts m s = true) :
    ciStarts m (s ++ r) = true := by
  induction m generalizing s with
  | nil => rfl
  | cons mc ms ih =>
    cases s with
    | nil => exact absurd h (by simp [ciStarts])
    | cons c cs =>
      simp only [ciStarts, Bool.and_eq_true] at h
      simp only [List.cons_append, ciStarts, Bool.and_eq_true]
      exact ⟨h.1, ih cs h.2⟩

/-- When the text is at least as long as the marker, appending on the
right does not change the prefix match. -/
lemma ciStarts_append_long (m s r : List Char) (h : m.length ≤ s.length) :
    ciStarts m (s ++ r) = ciStarts m s := by
  induction m generalizing s with
  | nil => rfl
  | cons mc ms ih =>
    cases s with
    | nil => simp at h
    | cons c cs =>
      simp only [List.cons_append, ciStarts, List.append_eq]
      rw [ih cs (by simpa using h)]

/-- A definite mismatch inside the text makes every right extension fail
the prefix match. -/
lemma ciStarts_eq_false_of_fails (m s r : List Char)
    (h : ciFailsWithin m s = true) : ciStarts m (s ++ r) = false := by
  induction m generalizing s with
  | nil => exact absurd h (by simp [ciFailsWithin])
  | cons mc ms ih =>
    cases s with
    | nil => exact absurd h (by simp [ciFailsWithin])
    | cons c cs =>
      simp only [ciFailsWithin] at h
      simp only [List.cons_append, ciStarts]
      cases hc : c.toLower == mc with
      | false => simp [hc]
      | true =>
        rw [if_pos (by rw [hc])] at h
        simp [hc, ih cs h]

/-- A marker that avoids a blocker character cannot match across that
character when the text before it is shorter than the marker. -/
lemma ciStarts_blocked (m s r : List Char) (b : Char)
    (hb : ∀ c ∈ m, b.toLower ≠ c) (hl : s.length < m.length) :
    ciStarts m (s ++ b :: r) = false := by
  induction m generalizing s with
  | nil => simp at hl
  | cons mc ms ih =>
    cases s with
    | nil =>
      simp only [List.nil_append, ciStarts]
      have hbm : (b.toLower == mc) = false := by
        simpa using hb mc (List.mem_cons_self mc ms)
      simp [hbm]
    | cons c cs =>
      simp only [List.cons_append, ciStarts, List.append_eq]
      rw [ih cs (fun x hx => hb x (List.mem_cons_of_mem _ hx)) (by simpa using hl)]
      simp

/-- The empty marker is contained in every text. -/
lemma containsCI_nil_marker (l : List Char) : containsCI [] l = true := by
  cases l <;> simp [containsCI, ciStarts]

/-- Containment of the marker survives extending the text on the
right. -/
lemma containsCI_append_right (m w r : List Char)
    (h : containsCI m w = true) : containsCI m (w ++ r) = true := by
  induction w with
  | nil =>
    cases m with
    | nil => simpa using containsCI_nil_marker r
    | cons mc ms => exact absurd h (by simp [containsCI, ciStarts])
  | cons c cs ih =>
    simp only [containsCI, Bool.or_eq_true] at h
    simp only [List.cons_append, containsCI, Bool.or_eq_true]
    rcases h with h | h
    · exact Or.inl (ciStarts_append_of _ _ _ h)
    · exact Or.inr (ih h)

/-- Containment of the marker survives extending the text on the left. -/
lemma containsCI_append_left (m p w : List Char)
    (h : containsCI m w = true) : containsCI m (p ++ w) = true := by
  induction p with
  | nil => simpa using h
  | cons x xs ih =>
    simp only [List.cons_append, containsCI, Bool.or_eq_true]
    exact Or.inr ih

/-- Containment of a marker in an infix implies containment in the whole
text. -/
lemma containsCI_of_part (m v l : List Char) (hv : v <:+: l)
    (h : containsCI m v = true) : containsCI m l = true := by
  obtain ⟨p, q, rfl⟩ := hv
  rw [List.append_assoc]
  exact containsCI_append_left _ _ _ (containsCI_append_right _ _ _ h)

/-- A text free of the marker has all of its infixes free of the
marker. -/
lemma containsCI_infix_false (m v l : List Char) (hv : v <:+: l)
    (h : containsCI m l = false) : containsCI m v = false := by
  cases hcv : containsCI m v with
  | false => rfl
  | true => rw [containsCI_of_part m v l hv hcv] at h; cases h

/-- A prefix match at some suffix position gives containment. -/
lemma containsCI_of_suffix_starts (m s l : List Char) (hs : s <:+ l)
    (h : ciStarts m s = true) : containsCI m l = true := by
  obtain ⟨p, rfl⟩ := hs
  induction p with
  | nil =>
    cases s with
    | nil => simpa [containsCI] using h
    | cons c cs => simp [containsCI, h]
  | cons x xs ih =>
    simp only [List.cons_append, containsCI, Bool.or_eq_true]
    exact Or.inr ih

/-- No suffix of a text that is free of the sentiment marker can start a
sentiment-marker match that continues across a newline character. -/
lemma no_sentiment_across (M s r : List Char)
    (hm : containsCI sentimentMarker M = false) (hs : s <:+ M) :
    ciStarts sentimentMarker (s ++ '\n' :: r) = false := by
  by_cases hlen : sentimentMarker.length ≤ s.length
  · rw [show (s ++ '\n' :: r) = s ++ ('\n' :: r) from rfl,
      ciStarts_append_long _ _ _ hlen]
    cases hcs : ciStarts sentimentMarker s with
    | false => rfl
    | true =>
      rw [containsCI_of_suffix_starts _ _ _ hs hcs] at hm
      cases hm
  · exact ciStarts_blocked _ _ _ '\n' (by decide) (Nat.lt_of_not_le hlen)

/-- A failed attempt at the head position makes the search move one
character to the right. -/
lemma reSearch_skip (attempt : List Char → Option α) (c : Char)
    (rest : List Char) (h : attempt (c :: rest) = none) :
    reSearch attempt (c :: rest) = reSearch attempt rest := by
  simp [reSearch, h]

/-- A successful attempt at the head position is the search result. -/
lemma reSearch_hit (attempt : List Char → Option α) (c : Char)
    (rest : List Char) (v : α) (h : attempt (c :: rest) = some v) :
    reSearch attempt (c :: rest) = some v := by
  simp [reSearch, h]

/-- When every start position inside a leading region fails, the search
continues in the remainder of the text. -/
lemma reSearch_append_none (attempt : List Char → Option α) (xs ys : List Char)
    (h : ∀ s, s <:+ xs → s ≠ [] → attempt (s ++ ys) = none) :
    reSearch attempt (xs ++ ys) = reSearch attempt ys := by
  induction xs with
  | nil => simp
  | cons x xs ih =>
    rw [List.cons_append, reSearch_skip _ _ _ ?hfirst]
    · exact ih (fun s hs hne => h s (hs.trans (List.suffix_cons x xs)) hne)
    case hfirst =>
      have hx := h (x :: xs) (List.suffix_refl _) (by simp)
      simpa using hx

/-- The non-greedy capture walks through a region on which the stop
condition never holds and continues in the remainder. -/
lemma grabUntil_append (stop : List Char → Bool) (v ys : List Char)
    (h : ∀ s, s <:+ v → s ≠ v → stop (s ++ ys) = false) :
    grabUntil stop (v ++ ys) = v ++ grabUntil stop ys := by
  induction v with
  | nil => simp
  | cons c cs ih =>
    rw [List.cons_append, grabUntil, h cs (List.suffix_cons c cs)
      (fun heq => by
        have := congrArg List.length heq
        simp at this)]
    rw [ih (fun s hs hsne => h s (hs.trans (List.suffix_cons c cs))
      (fun heq => by
        rw [heq] at hs
        have := hs.length_le
        simp at this))]
    simp

/-- A text with no occurrence of the summary marker makes the summary
search fail. -/
lemma reSearch_summary_none (t : List Char)
    (h : containsCI summaryMarker t = false) :
    reSearch attemptSummary t = none := by
  induction t with
  | nil => rfl
  | cons c cs ih =>
    have h2 : ciStarts summaryMarker (c :: cs) = false ∧
        containsCI summaryMarker cs = false := by
      constructor
      · cases hx : ciStarts summaryMarker (c :: cs) with
        | false => rfl
        | true => rw [containsCI, hx] at h; simp at h
      · cases hx : containsCI summaryMarker cs with
        | false => rfl
        | true => rw [containsCI, hx] at h; simp at h
    rw [reSearch_skip _ _ _ (by simp [attemptSummary, h2.1])]
    exact ih h2.2

/-- The summary field defaults when the reply has no occurrence of the
summary marker. -/
lemma summaryOf_default (t : List Char)
    (h : containsCI summaryMarker t = false) :
    summaryOf t = "Summary not available.".toList := by
  unfold summaryOf
  rw [reSearch_summary_none t h]

/-- Python strip returns an infix of its argument. -/
lemma pyStrip_is_part (t : List Char) : pyStrip t <:+: t := by
  have hdw : ∀ l : List Char, l.dropWhile pyIsSpace <:+ l := by
    intro l
    induction l with
    | nil => exact List.suffix_refl _
    | cons c cs ih =>
      rw [List.dropWhile_cons]
      by_cases h : pyIsSpace c = true
      · rw [if_pos h]; exact ih.trans (List.suffix_cons c cs)
      · simp only [if_neg h]; exact List.suffix_refl _
  obtain ⟨p, hp⟩ := hdw t
  obtain ⟨q, hq⟩ := hdw (t.dropWhile pyIsSpace).reverse
  refine ⟨p, q.reverse, ?_⟩
  have hrev : pyStrip t ++ q.reverse = t.dropWhile pyIsSpace := by
    have h3 := congrArg List.reverse hq
    simpa [pyStrip, List.reverse_append] using h3
  calc p ++ pyStrip t ++ q.reverse
      = p ++ (pyStrip t ++ q.reverse) := by rw [List.append_assoc]
    _ = p ++ t.dropWhile pyIsSpace := by rw [hrev]
    _ = t := hp

/-- Strip is the identity on a list that is unchanged by the whitespace
drop on either side. -/
lemma pyStrip_eq_self (l : List Char) (h1 : l.dropWhile pyIsSpace = l)
    (h2 : l.reverse.dropWhile pyIsSpace = l.reverse) : pyStrip l = l := by
  unfold pyStrip
  rw [h1, h2, List.reverse_reverse]

/-- Dropping one trailing whitespace character does not change the
stripped value of a list with a non-whitespace head. -/
lemma pyStrip_concat_ws (c : Char) (cs : List Char) (w : Char)
    (hc : pyIsSpace c = false) (hw : pyIsSpace w = true) :
    pyStrip ((c :: cs) ++ [w]) = pyStrip (c :: cs) := by
  unfold pyStrip
  rw [List.cons_append, List.dropWhile_cons, if_neg (by simp [hc]),
    ← List.cons_append, List.dropWhile_cons, if_neg (by simp [hc]),
    List.reverse_append]
  simp only [List.reverse_cons, List.reverse_nil, List.nil_append,
    List.singleton_append]
  rw [List.dropWhile_cons, if_pos (by simp [hw])]

/-- The clamp of the impact score always lands in the range 1 to 10. -/
lemma impactOf_range (t : List Char) : 1 ≤ impactOf t ∧ impactOf t ≤ 10 := by
  unfold impactOf
  generalize (match reSearch attemptImpact t with
    | some d => digitsToNat d
    | none => 5) = x
  omega

/-- Once the configuration step succeeds, every model outcome yields a
non-none analysis record. -/
lemma analyze_ok_some (article : Article) (model : ModelOutcome) :
    ∃ r, analyze_article article ConfigOutcome.ok model = some r := by
  cases model with
  | raise m => exact ⟨_, rfl⟩
  | reply t =>
    by_cases h : t.isEmpty
    · refine ⟨{ summary := "Analysis unavailable.".toList,
                sentiment := "neutral".toList, impact_score := 5 }, ?_⟩
      simp [analyze_article, h]
    · refine ⟨parseAnalysis (pyStrip t), ?_⟩
      simp [analyze_article, h]

/-- C10 (confirmed): for an article dictionary carrying both the title and
the description key (the fields of the Article record), analyze_article
returns none exactly when the model-configuration step fails; whenever
configuration succeeds it returns a non-none record, whatever the model
call does. -/
theorem analyze_none_iff_config_failure :
    ∀ (article : Article) (config : ConfigOutcome) (model : ModelOutcome),
      analyze_article article config model = none ↔
        ∃ m, config = ConfigOutcome.failure m := by
  intro article config model
  cases config with
  | failure m => exact ⟨fun _ => ⟨m, rfl⟩, fun _ => rfl⟩
  | ok =>
    constructor
    · intro h
      rcases analyze_ok_some article model with ⟨r, hr⟩
      rw [hr] at h
      cases h
    · rintro ⟨m, hm⟩
      cases hm

/-- C3 (confirmed): whenever the model invocation raises, analyze_article
returns the degraded record built locally: the article description
truncated to 200 characters followed by the ellipsis marker, sentiment
Neutral, impact score 5. -/
theorem model_failure_returns_degraded_result :
    ∀ (article : Article) (msg : List Char),
      analyze_article article ConfigOutcome.ok (ModelOutcome.raise msg) =
        some { summary := article.description.take 200 ++ "...".toList,
               sentiment := "Neutral".toList,
               impact_score := 5 } := by
  intro article msg
  rfl

/-- C9 counterexample: on the empty model reply the code returns the
lower-case word neutral, which differs from the canonical capitalized
label Neutral that the claim names. -/
theorem empty_reply_default_sentiment_lowercase :
    analyze_article sampleArticle ConfigOutcome.ok (ModelOutcome.reply []) =
      some { summary := "Analysis unavailable.".toList,
             sentiment := "neutral".toList, impact_score := 5 } ∧
    ({ summary := "Analysis unavailable.".toList,
       sentiment := "neutral".toList,
       impact_score := 5 } : AnalysisResult).sentiment ≠ "Neutral".toList := by
  exact ⟨rfl, by decide⟩

/-- C9 (corrected): on an empty model reply, analyze_article returns the
fixed default record with summary Analysis unavailable., the lower-case
sentiment word neutral, and impact score 5. -/
theorem empty_reply_default_result :
    ∀ article : Article,
      analyze_article article ConfigOutcome.ok (ModelOutcome.reply []) =
        some { summary := "Analysis unavailable.".toList,
               sentiment := "neutral".toList, impact_score := 5 } :=
  fun _ => rfl

/-- C1 counterexample: the empty model reply, whose sentiment word is
missing, yields the sentiment value neutral in lower case, which is not
one of the four canonical capitalized values. -/
theorem empty_reply_sentiment_not_canonical :
    analyze_article sampleArticle ConfigOutcome.ok (ModelOutcome.reply []) =
      some { summary := "Analysis unavailable.".toList,
             sentiment := "neutral".toList, impact_score := 5 } ∧
    ({ summary := "Analysis unavailable.".toList,
       sentiment := "neutral".toList,
       impact_score := 5 } : AnalysisResult).sentiment ∉ canonicalSentiments := by
  exact ⟨rfl, by decide⟩

/-- C7 (confirmed): fetch_news absorbs every failure of the underlying
network call: each failure branch, the timeout in particular, returns the
empty article list together with exactly one diagnostic message. -/
theorem fetch_absorbs_failures :
    fetch_news FetchOutcome.timeout = ([], [Diagnostic.timedOut]) ∧
    (∀ m, fetch_news (FetchOutcome.requestError m) =
      ([], [Diagnostic.networkError m])) ∧
    (∀ m, fetch_news (FetchOutcome.otherError m) =
      ([], [Diagnostic.unexpectedError m])) ∧
    (fetch_news FetchOutcome.timeout).2.length = 1 :=
  ⟨rfl, fun _ => rfl, fun _ => rfl, rfl⟩

/-- C8 (confirmed): the round-trip scenario: a success payload with one
fully populated item maps to exactly one Article with the corresponding
fields. -/
theorem fetch_round_trip :
    fetch_news (FetchOutcome.success
      { status := some ("success".toList),
        results := [{ title := some ("A".toList),
                      description := some ("B".toList),
                      content := none,
                      link := some ("http://x".toList),
                      source_id := some ("S".toList),
                      pubDate := some ("t".toList) }],
        error_message := none }) =
    ([{ title := "A".toList, description := "B".toList,
        url := "http://x".toList, source := "S".toList,
        published_at := "t".toList }], []) := by
  decide

/-- C4 (confirmed): the batch orchestrator is the stable filter of the
input: it returns exactly the entries whose analysis is non-none, each
merged with its analysis fields, in input order, and its output is never
longer than its input. -/
theorem batch_is_stable_filter :
    ∀ inputs : List BatchInput,
      batch_analyze_articles inputs =
        inputs.filterMap (fun i =>
          (analyze_article i.article i.config i.model).map (mergeArticle i.article)) ∧
      (batch_analyze_articles inputs).length ≤ inputs.length := by
  intro inputs
  have h : batch_analyze_articles inputs =
      inputs.filterMap (fun i =>
        (analyze_article i.article i.config i.model).map (mergeArticle i.article)) := by
    induction inputs with
    | nil => rfl
    | cons i rest ih =>
      rw [List.filterMap_cons]
      cases hr : analyze_article i.article i.config i.model with
      | none => simpa [batch_analyze_articles, hr] using ih
      | some r => simpa [batch_analyze_articles, hr] using ih
  refine ⟨h, ?_⟩
  rw [h]
  exact List.length_filterMap_le _ _

/-- C2 (confirmed): the impact score of every returned analysis record
lies in the range 1 to 10; a parsed value of 15 clamps to 10, a parsed
value of 0 clamps to 1, a parsed value of 7 passes through unchanged, and
an absent impact-score field defaults to 5. -/
theorem impact_score_in_range_and_clamped :
    (∀ (article : Article) (config : ConfigOutcome) (model : ModelOutcome)
        (r : AnalysisResult),
        analyze_article article config model = some r →
        1 ≤ r.impact_score ∧ r.impact_score ≤ 10) ∧
    (∃ r, analyze_article sampleArticle ConfigOutcome.ok
        (ModelOutcome.reply ("IMPACT_SCORE: 15".toList)) = some r ∧
        r.impact_score = 10) ∧
    (∃ r, analyze_article sampleArticle ConfigOutcome.ok
        (ModelOutcome.reply ("IMPACT_SCORE: 0".toList)) = some r ∧
        r.impact_score = 1) ∧
    (∃ r, analyze_article sampleArticle ConfigOutcome.ok
        (ModelOutcome.reply ("IMPACT_SCORE: 7".toList)) = some r ∧
        r.impact_score = 7) ∧
    (∃ r, analyze_article sampleArticle ConfigOutcome.ok
        (ModelOutcome.reply ("SUMMARY: nothing to score".toList)) = some r ∧
        r.impact_score = 5) := by
  refine ⟨?_, ⟨_, rfl, by decide⟩, ⟨_, rfl, by decide⟩, ⟨_, rfl, by decide⟩,
    ⟨_, rfl, by decide⟩⟩
  intro article config model r h
  cases config with
  | failure m => cases h
  | ok =>
    cases model with
    | raise m =>
      have h5 : r.impact_score = 5 := by rw [← Option.some.inj h]
      omega
    | reply t =>
      by_cases ht : t.isEmpty
      · simp [analyze_article, ht] at h
        rw [← h]
        exact ⟨by decide, by decide⟩
      · simp [analyze_article, ht] at h
        rw [← h]
        exact impactOf_range _

/-- The displayed sentiment always comes from the four canonical
capitalized labels. -/
lemma sentimentOf_mem (t : List Char) :
    sentimentOf t ∈ canonicalSentiments := by
  unfold sentimentOf
  by_cases h : sentimentWordOf t ∈ sentimentList
  · rw [if_pos h]
    simp only [sentimentList, List.mem_cons, List.mem_singleton,
      List.not_mem_nil, or_false] at h
    rcases h with h | h | h | h <;> rw [h] <;> decide
  · rw [if_neg h]
    decide

/-- When the reply carries no recognisable sentiment word, the displayed
sentiment is the capitalized Neutral. -/
lemma sentimentOf_neutral (t : List Char)
    (h : sentimentWordRecognized t = false) :
    sentimentOf t = "Neutral".toList := by
  unfold sentimentOf sentimentWordOf
  unfold sentimentWordRecognized at h
  cases hs : reSearch attemptSentiment t with
  | none => decide
  | some w =>
    rw [hs] at h
    have h2 : (pyStrip w).map Char.toLower ∉ sentimentList :=
      of_decide_eq_false (by simpa using h)
    show pyCapitalize (if (pyStrip w).map Char.toLower ∈ sentimentList
      then (pyStrip w).map Char.toLower else "neutral".toList) =
      "Neutral".toList
    rw [if_neg h2]
    decide

/-- C1 (corrected): for every non-empty model reply the sentiment field of
the returned record is one of the four canonical capitalized values, and
any non-empty reply whose sentiment word is missing or falls outside the
accepted set yields Neutral.  (The empty reply instead yields the
lower-case word neutral; see the counterexample.) -/
theorem sentiment_canonical_of_nonempty_reply :
    ∀ (article : Article) (t : List Char), t ≠ [] →
      ∃ r, analyze_article article ConfigOutcome.ok (ModelOutcome.reply t) =
          some r ∧
        r.sentiment ∈ canonicalSentiments ∧
        (sentimentWordRecognized (pyStrip t) = false →
          r.sentiment = "Neutral".toList) := by
  intro article t ht
  have hne : t.isEmpty = false := by
    cases t with
    | nil => exact absurd rfl ht
    | cons c cs => rfl
  refine ⟨parseAnalysis (pyStrip t), ?_, ?_, ?_⟩
  · simp [analyze_article, hne]
  · exact sentimentOf_mem _
  · exact fun h => sentimentOf_neutral _ h

/-- Instantiation of the canonical-sentiment theorem at a reply carrying
a sentiment word outside the accepted set. -/
theorem sentiment_canonical_witness :
    ∃ r, analyze_article sampleArticle ConfigOutcome.ok
        (ModelOutcome.reply ("SENTIMENT: happy".toList)) = some r ∧
      r.sentiment ∈ canonicalSentiments ∧
      (sentimentWordRecognized (pyStrip ("SENTIMENT: happy".toList)) = false →
        r.sentiment = "Neutral".toList) :=
  sentiment_canonical_of_nonempty_reply sampleArticle
    ("SENTIMENT: happy".toList) (by decide)

/-- C6 (confirmed): on a success payload an Article is emitted only for an
item whose title is present and truthy and that has a truthy description
or body content; and an item whose description and content are both absent
or empty contributes nothing to the output, with no error raised. -/
theorem article_emitted_only_with_content :
    (∀ (out : FetchOutcome) (a : Article), a ∈ (fetch_news out).1 →
      ∃ d, out = FetchOutcome.success d ∧
        ∃ item ∈ d.results,
          truthy item.title = true ∧ item.title ≠ none ∧
          (truthy item.description = true ∨ truthy item.content = true) ∧
          (item.description ≠ none ∨ item.content ≠ none) ∧
          a = itemToArticle item) ∧
    (∀ (st msg : Option (List Char)) (pre post : List NewsItem)
        (item : NewsItem),
      truthy item.description = false → truthy item.content = false →
      fetch_news (FetchOutcome.success
        { status := st, results := pre ++ item :: post,
          error_message := msg }) =
      fetch_news (FetchOutcome.success
        { status := st, results := pre ++ post, error_message := msg })) := by
  constructor
  · intro out a ha
    cases out with
    | timeout => simp [fetch_news] at ha
    | requestError m => simp [fetch_news] at ha
    | otherError m => simp [fetch_news] at ha
    | success d =>
      refine ⟨d, rfl, ?_⟩
      by_cases hst : d.status = some ("success".toList)
      · rw [fetch_news, if_pos hst] at ha
        rw [List.mem_filterMap] at ha
        obtain ⟨item, hmem, hit⟩ := ha
        by_cases hc : (truthy item.title &&
            (truthy item.description || truthy item.content)) = true
        · rw [if_pos hc] at hit
          have ha2 : a = itemToArticle item := (Option.some.inj hit).symm
          simp only [Bool.and_eq_true, Bool.or_eq_true] at hc
          obtain ⟨hti, hdc⟩ := hc
          refine ⟨item, hmem, hti, ?_, hdc, ?_, ha2⟩
          · intro hnone
            rw [hnone] at hti
            simp [truthy] at hti
          · rcases hdc with h | h
            · left
              intro hnone
              rw [hnone] at h
              simp [truthy] at h
            · right
              intro hnone
              rw [hnone] at h
              simp [truthy] at h
        · rw [if_neg hc] at hit
          cases hit
      · rw [fetch_news, if_neg hst] at ha
        simp at ha
  · intro st msg pre post item h1 h2
    by_cases hst : st = some ("success".toList)
    · rw [fetch_news, fetch_news]
      simp only [if_pos hst]
      rw [List.filterMap_append, List.filterMap_append, List.filterMap_cons]
      simp [h1, h2]
    · rw [fetch_news, fetch_news]
      simp only [if_neg hst]

/-- Instantiation of the emission theorem: one populated item is traced
back to its source item, and one item with absent description and empty
content drops out of the output. -/
theorem article_emitted_witness :
    (∃ d, FetchOutcome.success
        { status := some ("success".toList),
          results := [{ title := some ("A".toList),
                        description := some ("B".toList), content := none,
                        link := none, source_id := none, pubDate := none }],
          error_message := none } = FetchOutcome.success d ∧
      ∃ item ∈ d.results,
        truthy item.title = true ∧ item.title ≠ none ∧
        (truthy item.description = true ∨ truthy item.content = true) ∧
        (item.description ≠ none ∨ item.content ≠ none) ∧
        ({ title := "A".toList, description := "B".toList,
           url := "#".toList, source := "Unknown".toList,
           published_at := [] } : Article) = itemToArticle item) ∧
    (fetch_news (FetchOutcome.success
        { status := some ("success".toList),
          results := [] ++ { title := some ("A".toList), description := none,
                             content := some [], link := none,
                             source_id := none, pubDate := none } :: [],
          error_message := none }) =
      fetch_news (FetchOutcome.success
        { status := some ("success".toList), results := [] ++ [],
          error_message := none })) :=
  ⟨article_emitted_only_with_content.1 _ _ (by decide),
   article_emitted_only_with_content.2 (some ("success".toList)) none [] []
     { title := some ("A".toList), description := none, content := some [],
       link := none, source_id := none, pubDate := none }
     (by decide) (by decide)⟩

/-- Instantiation of the range statement of the clamping theorem at a
concrete reply carrying an out-of-range impact score. -/
theorem impact_score_witness :
    1 ≤ (parseAnalysis (pyStrip ("IMPACT_SCORE: 15".toList))).impact_score ∧
    (parseAnalysis (pyStrip ("IMPACT_SCORE: 15".toList))).impact_score ≤ 10 :=
  impact_score_in_range_and_clamped.1 sampleArticle ConfigOutcome.ok
    (ModelOutcome.reply ("IMPACT_SCORE: 15".toList))
    (parseAnalysis (pyStrip ("IMPACT_SCORE: 15".toList))) (by decide)

lemma sumLit : "SUMMARY: ".toList =
    ['S', 'U', 'M', 'M', 'A', 'R', 'Y', ':', ' '] := rfl

lemma tailLit : "\nSENTIMENT: Positive\nIMPACT_SCORE: 12".toList =
    '\n' :: "SENTIMENT: Positive\nIMPACT_SCORE: 12".toList := rfl

lemma tailSplit : "\nSENTIMENT: Positive\nIMPACT_SCORE: 12".toList =
    "\nSENTIMENT: Positive\nIMPACT_SCORE: 1".toList ++ ['2'] := by decide

/-- The scenario reply written in head-normal form. -/
lemma c5_normal (c : Char) (cs : List Char) :
    "SUMMARY: ".toList ++ (c :: cs) ++
      "\nSENTIMENT: Positive\nIMPACT_SCORE: 12".toList =
    'S' :: 'U' :: 'M' :: 'M' :: 'A' :: 'R' :: 'Y' :: ':' :: ' ' :: c ::
      (cs ++ "\nSENTIMENT: Positive\nIMPACT_SCORE: 12".toList) := by
  rw [sumLit]
  simp [List.cons_append, List.append_assoc]

/-- The scenario reply is unchanged by stripping. -/
lemma c5_strip (c : Char) (cs : List Char) :
    pyStrip ("SUMMARY: ".toList ++ (c :: cs) ++
      "\nSENTIMENT: Positive\nIMPACT_SCORE: 12".toList) =
    "SUMMARY: ".toList ++ (c :: cs) ++
      "\nSENTIMENT: Positive\nIMPACT_SCORE: 12".toList := by
  apply pyStrip_eq_self
  · rw [c5_normal, List.dropWhile_cons, if_neg (by decide)]
  · rw [tailSplit, ← List.append_assoc, List.reverse_append]
    simp only [List.reverse_cons, List.reverse_nil, List.nil_append,
      List.singleton_append]
    rw [List.dropWhile_cons, if_neg (by decide)]

/-- Inside the scenario reply the lookahead of the summary capture never
fires before the newline that precedes the sentiment marker. -/
lemma c5_grab (c : Char) (cs : List Char)
    (hm : containsCI sentimentMarker (c :: cs) = false) :
    grabUntil lookaheadStop ((c :: cs) ++
        "\nSENTIMENT: Positive\nIMPACT_SCORE: 12".toList) =
      (c :: cs) ++ ['\n'] := by
  rw [grabUntil_append lookaheadStop (c :: cs) _ ?hstop]
  · rw [show grabUntil lookaheadStop
        ("\nSENTIMENT: Positive\nIMPACT_SCORE: 12".toList) = ['\n'] from by decide]
  case hstop =>
    intro s hs hne
    rw [tailLit]
    unfold lookaheadStop
    rw [no_sentiment_across (c :: cs) s _ hm hs]
    simp only [Bool.false_or]
    cases s with
    | nil => decide
    | cons x xs =>
      simp only [List.cons_append, List.isEmpty_cons, Bool.false_or]
      apply decide_eq_false
      intro he
      simp at he

/-- The whitespace run after the summary marker of the scenario reply is
the single blank. -/
lemma c5_capture (c : Char) (X : List Char) (hc : pyIsSpace c = false) :
    summaryCapture (' ' :: c :: X) =
      some (grabUntil lookaheadStop (c :: X)) := by
  unfold summaryCapture
  have hdw : (' ' :: c :: X).dropWhile pyIsSpace = c :: X := by
    rw [List.dropWhile_cons, if_pos (by decide), List.dropWhile_cons,
      if_neg (by simp [hc])]
  simp [hdw]

/-- The summary search on the scenario reply matches at the first
position and captures up to the newline before the sentiment marker. -/
lemma c5_search_summary (c : Char) (cs : List Char) (hc : pyIsSpace c = false)
    (hm : containsCI sentimentMarker (c :: cs) = false) :
    reSearch attemptSummary ("SUMMARY: ".toList ++ (c :: cs) ++
        "\nSENTIMENT: Positive\nIMPACT_SCORE: 12".toList) =
      some ((c :: cs) ++ ['\n']) := by
  rw [c5_normal]
  apply reSearch_hit
  have hci : ciStarts summaryMarker
      ('S' :: 'U' :: 'M' :: 'M' :: 'A' :: 'R' :: 'Y' :: ':' :: ' ' :: c ::
        (cs ++ "\nSENTIMENT: Positive\nIMPACT_SCORE: 12".toList)) = true := by
    show ciStarts summaryMarker (['S', 'U', 'M', 'M', 'A', 'R', 'Y', ':', ' '] ++
      (c :: (cs ++ "\nSENTIMENT: Positive\nIMPACT_SCORE: 12".toList))) = true
    exact ciStarts_append_of _ _ _ (by decide)
  unfold attemptSummary
  rw [if_pos hci]
  rw [show ('S' :: 'U' :: 'M' :: 'M' :: 'A' :: 'R' :: 'Y' :: ':' :: ' ' :: c ::
      (cs ++ "\nSENTIMENT: Positive\nIMPACT_SCORE: 12".toList)).drop
        summaryMarker.length =
    ' ' :: c :: (cs ++ "\nSENTIMENT: Positive\nIMPACT_SCORE: 12".toList) from rfl]
  rw [c5_capture c _ hc]
  rw [show c :: (cs ++ "\nSENTIMENT: Positive\nIMPACT_SCORE: 12".toList) =
    (c :: cs) ++ "\nSENTIMENT: Positive\nIMPACT_SCORE: 12".toList from rfl]
  rw [c5_grab c cs hm]

/-- An attempt of the sentiment pattern fails wherever the marker does not
match. -/
lemma attemptSentiment_not_marker (s : List Char)
    (h : ciStarts sentimentMarker s = false) : attemptSentiment s = none := by
  simp [attemptSentiment, h]

/-- The sentiment search on the scenario reply skips the summary region
and the free middle text and captures the word Positive. -/
lemma c5_search_sentiment (c : Char) (cs : List Char)
    (hm : containsCI sentimentMarker (c :: cs) = false) :
    reSearch attemptSentiment ("SUMMARY: ".toList ++ (c :: cs) ++
        "\nSENTIMENT: Positive\nIMPACT_SCORE: 12".toList) =
      some ("Positive".toList) := by
  rw [List.append_assoc]
  rw [reSearch_append_none attemptSentiment ("SUMMARY: ".toList) _ ?hskipA]
  rw [reSearch_append_none attemptSentiment (c :: cs) _ ?hskipM]
  · decide
  case hskipM =>
    intro s hs hne
    rw [tailLit]
    exact attemptSentiment_not_marker _ (no_sentiment_across (c :: cs) s _ hm hs)
  case hskipA =>
    intro s hs hne
    rw [← List.mem_tails] at hs
    rw [show ("SUMMARY: ".toList).tails =
      [['S', 'U', 'M', 'M', 'A', 'R', 'Y', ':', ' '],
       ['U', 'M', 'M', 'A', 'R', 'Y', ':', ' '],
       ['M', 'M', 'A', 'R', 'Y', ':', ' '],
       ['M', 'A', 'R', 'Y', ':', ' '],
       ['A', 'R', 'Y', ':', ' '],
       ['R', 'Y', ':', ' '],
       ['Y', ':', ' '],
       [':', ' '],
       [' '],
       []] from by decide] at hs
    fin_cases hs
    · exact attemptSentiment_not_marker _ (ciStarts_eq_false_of_fails _ _ _ (by decide))
    · exact attemptSentiment_not_marker _ (ciStarts_eq_false_of_fails _ _ _ (by decide))
    · exact attemptSentiment_not_marker _ (ciStarts_eq_false_of_fails _ _ _ (by decide))
    · exact attemptSentiment_not_marker _ (ciStarts_eq_false_of_fails _ _ _ (by decide))
    · exact attemptSentiment_not_marker _ (ciStarts_eq_false_of_fails _ _ _ (by decide))
    · exact attemptSentiment_not_marker _ (ciStarts_eq_false_of_fails _ _ _ (by decide))
    · exact attemptSentiment_not_marker _ (ciStarts_eq_false_of_fails _ _ _ (by decide))
    · exact attemptSentiment_not_marker _ (ciStarts_eq_false_of_fails _ _ _ (by decide))
    · exact attemptSentiment_not_marker _ (ciStarts_eq_false_of_fails _ _ _ (by decide))
    · exact absurd rfl hne

/-- The summary field of the scenario reply is the middle text, stripped
of the captured trailing newline. -/
lemma c5_summaryOf (c : Char) (cs : List Char) (hc : pyIsSpace c = false)
    (hm : containsCI sentimentMarker (c :: cs) = false) :
    summaryOf ("SUMMARY: ".toList ++ (c :: cs) ++
        "\nSENTIMENT: Positive\nIMPACT_SCORE: 12".toList) =
      pyStrip (c :: cs) := by
  unfold summaryOf
  rw [c5_search_summary c cs hc hm]
  exact pyStrip_concat_ws c cs '\n' hc (by decide)

/-- The sentiment field of the scenario reply is the word Positive. -/
lemma c5_sentimentOf (c : Char) (cs : List Char)
    (hm : containsCI sentimentMarker (c :: cs) = false) :
    sentimentOf ("SUMMARY: ".toList ++ (c :: cs) ++
        "\nSENTIMENT: Positive\nIMPACT_SCORE: 12".toList) =
      "Positive".toList := by
  unfold sentimentOf sentimentWordOf
  rw [c5_search_sentiment c cs hm]
  decide

/-- A run of whitespace characters is consumed transparently by the
whitespace drop. -/
lemma dropWhile_append_all_ws (w x : List Char)
    (hw : ∀ a ∈ w, pyIsSpace a = true) :
    (w ++ x).dropWhile pyIsSpace = x.dropWhile pyIsSpace := by
  induction w with
  | nil => rfl
  | cons a as ih =>
    rw [List.cons_append, List.dropWhile_cons,
      if_pos (by simpa using hw a (List.mem_cons_self a as))]
    exact ih (fun b hb => hw b (List.mem_cons_of_mem _ hb))

/-- The scenario reply with an arbitrary middle, written in head-normal
form. -/
lemma c5_mid_normal (m : List Char) :
    "SUMMARY: ".toList ++ m ++
      "\nSENTIMENT: Positive\nIMPACT_SCORE: 12".toList =
    'S' :: 'U' :: 'M' :: 'M' :: 'A' :: 'R' :: 'Y' :: ':' :: ' ' ::
      (m ++ "\nSENTIMENT: Positive\nIMPACT_SCORE: 12".toList) := by
  rw [sumLit]
  simp [List.cons_append, List.append_assoc]

/-- The scenario reply with an arbitrary middle is unchanged by
stripping. -/
lemma c5_mid_strip (m : List Char) :
    pyStrip ("SUMMARY: ".toList ++ m ++
      "\nSENTIMENT: Positive\nIMPACT_SCORE: 12".toList) =
    "SUMMARY: ".toList ++ m ++
      "\nSENTIMENT: Positive\nIMPACT_SCORE: 12".toList := by
  apply pyStrip_eq_self
  · rw [c5_mid_normal, List.dropWhile_cons, if_neg (by decide)]
  · rw [tailSplit, ← List.append_assoc, List.reverse_append]
    simp only [List.reverse_cons, List.reverse_nil, List.nil_append,
      List.singleton_append]
    rw [List.dropWhile_cons, if_neg (by decide)]

/-- When everything between the markers is whitespace, the greedy
whitespace skip runs up to the sentiment marker and the mandatory
non-greedy capture then swallows the whole remaining tail, marker
included. -/
lemma c5_ws_capture (u : List Char)
    (hu : (' ' :: u).dropWhile pyIsSpace =
      "SENTIMENT: Positive\nIMPACT_SCORE: 12".toList) :
    summaryCapture (' ' :: u) =
      some ("SENTIMENT: Positive\nIMPACT_SCORE: 12".toList) := by
  simp only [summaryCapture, hu]
  rw [if_neg (show ¬((' ' :: u).isEmpty = true) from by simp),
    if_neg (show ¬(("SENTIMENT: Positive\nIMPACT_SCORE: 12".toList).isEmpty
      = true) from by decide)]
  decide

/-- The summary search on a scenario reply whose middle is whitespace
only: the capture is the whole tail including the sentiment marker. -/
lemma c5_ws_search (w : List Char) (hw : ∀ a ∈ w, pyIsSpace a = true) :
    reSearch attemptSummary ("SUMMARY: ".toList ++ w ++
        "\nSENTIMENT: Positive\nIMPACT_SCORE: 12".toList) =
      some ("SENTIMENT: Positive\nIMPACT_SCORE: 12".toList) := by
  rw [c5_mid_normal]
  apply reSearch_hit
  have hci : ciStarts summaryMarker
      ('S' :: 'U' :: 'M' :: 'M' :: 'A' :: 'R' :: 'Y' :: ':' :: ' ' ::
        (w ++ "\nSENTIMENT: Positive\nIMPACT_SCORE: 12".toList)) = true := by
    show ciStarts summaryMarker (['S', 'U', 'M', 'M', 'A', 'R', 'Y', ':', ' '] ++
      (w ++ "\nSENTIMENT: Positive\nIMPACT_SCORE: 12".toList)) = true
    exact ciStarts_append_of _ _ _ (by decide)
  unfold attemptSummary
  rw [if_pos hci]
  rw [show ('S' :: 'U' :: 'M' :: 'M' :: 'A' :: 'R' :: 'Y' :: ':' :: ' ' ::
      (w ++ "\nSENTIMENT: Positive\nIMPACT_SCORE: 12".toList)).drop
        summaryMarker.length =
    ' ' :: (w ++ "\nSENTIMENT: Positive\nIMPACT_SCORE: 12".toList) from rfl]
  apply c5_ws_capture
  rw [List.dropWhile_cons, if_pos (by decide),
    dropWhile_append_all_ws w _ hw]
  decide

example : summaryOf (pyStrip
    ("SUMMARY: \nSENTIMENT: Positive\nIMPACT_SCORE: 12".toList)) =
    "SENTIMENT: Positive\nIMPACT_SCORE: 12".toList := by decide

/-- C5 counterexample: on the reply whose text between the markers is
whitespace only, the returned summary is the entire remaining tail,
sentiment marker included, and in particular not the whitespace-trimmed
text up to (not including) the next sentiment marker, which would be
empty. -/
theorem summary_whitespace_middle_counterexample :
    analyze_article sampleArticle ConfigOutcome.ok (ModelOutcome.reply
        ("SUMMARY: \nSENTIMENT: Positive\nIMPACT_SCORE: 12".toList)) =
      some { summary := "SENTIMENT: Positive\nIMPACT_SCORE: 12".toList,
             sentiment := "Positive".toList, impact_score := 10 } ∧
    containsCI sentimentMarker
      ("SENTIMENT: Positive\nIMPACT_SCORE: 12".toList) = true ∧
    "SENTIMENT: Positive\nIMPACT_SCORE: 12".toList ≠ ([] : List Char) := by
  refine ⟨rfl, by decide, by decide⟩

/-- C5 (corrected): the concrete scenario reply parses to the summary
X. Y., the sentiment Positive and the clamped impact score 10; for every
middle text with a non-whitespace head and no occurrence of the sentiment
marker, the summary of the reply built around it is exactly that middle
text up to the sentiment marker, whitespace-trimmed; for every middle
text made of whitespace only, the summary is instead the whole remaining
tail including the sentiment marker, because the mandatory non-greedy
capture must take at least one character; and whenever the summary marker
is absent the summary defaults to the literal fallback. -/
theorem summary_extraction_behavior :
    (∀ article : Article,
      analyze_article article ConfigOutcome.ok (ModelOutcome.reply
        ("SUMMARY: X. Y.\nSENTIMENT: Positive\nIMPACT_SCORE: 12".toList)) =
      some { summary := "X. Y.".toList, sentiment := "Positive".toList,
             impact_score := 10 }) ∧
    (∀ (article : Article) (c : Char) (cs : List Char),
      pyIsSpace c = false →
      containsCI sentimentMarker (c :: cs) = false →
      ∃ r, analyze_article article ConfigOutcome.ok (ModelOutcome.reply
          ("SUMMARY: ".toList ++ (c :: cs) ++
            "\nSENTIMENT: Positive\nIMPACT_SCORE: 12".toList)) = some r ∧
        r.summary = pyStrip (c :: cs) ∧
        r.sentiment = "Positive".toList) ∧
    (∀ (article : Article) (w : List Char),
      (∀ a ∈ w, pyIsSpace a = true) →
      ∃ r, analyze_article article ConfigOutcome.ok (ModelOutcome.reply
          ("SUMMARY: ".toList ++ w ++
            "\nSENTIMENT: Positive\nIMPACT_SCORE: 12".toList)) = some r ∧
        r.summary = "SENTIMENT: Positive\nIMPACT_SCORE: 12".toList) ∧
    (∀ (article : Article) (t : List Char), t ≠ [] →
      containsCI summaryMarker t = false →
      ∃ r, analyze_article article ConfigOutcome.ok (ModelOutcome.reply t) =
          some r ∧
        r.summary = "Summary not available.".toList) := by
  refine ⟨fun article => rfl, ?_, ?_, ?_⟩
  · intro article c cs hc hm
    have hne : ("SUMMARY: ".toList ++ (c :: cs) ++
        "\nSENTIMENT: Positive\nIMPACT_SCORE: 12".toList).isEmpty = false := by
      rw [c5_normal]
      rfl
    refine ⟨parseAnalysis (pyStrip ("SUMMARY: ".toList ++ (c :: cs) ++
      "\nSENTIMENT: Positive\nIMPACT_SCORE: 12".toList)), ?_, ?_, ?_⟩
    · simp [analyze_article, hne]
    · show summaryOf (pyStrip _) = _
      rw [c5_strip c cs]
      exact c5_summaryOf c cs hc hm
    · show sentimentOf (pyStrip _) = _
      rw [c5_strip c cs]
      exact c5_sentimentOf c cs hm
  · intro article w hw
    have hne : ("SUMMARY: ".toList ++ w ++
        "\nSENTIMENT: Positive\nIMPACT_SCORE: 12".toList).isEmpty = false := by
      rw [c5_mid_normal]
      rfl
    refine ⟨parseAnalysis (pyStrip ("SUMMARY: ".toList ++ w ++
      "\nSENTIMENT: Positive\nIMPACT_SCORE: 12".toList)), ?_, ?_⟩
    · simp [analyze_article, hne]
    · show summaryOf (pyStrip _) = _
      rw [c5_mid_strip w]
      unfold summaryOf
      rw [c5_ws_search w hw]
      decide
  · intro article t ht hm
    have hne : t.isEmpty = false := by
      cases t with
      | nil => exact absurd rfl ht
      | cons c cs => rfl
    refine ⟨parseAnalysis (pyStrip t), by simp [analyze_article, hne], ?_⟩
    show summaryOf (pyStrip t) = _
    exact summaryOf_default _
      (containsCI_infix_false _ _ _ (pyStrip_is_part t) hm)

/-- Instantiation of the summary-extraction theorem at a concrete middle
text, at a concrete whitespace-only middle, and at a concrete reply with
no summary marker. -/
theorem summary_extraction_witness :
    (∃ r, analyze_article sampleArticle ConfigOutcome.ok (ModelOutcome.reply
        ("SUMMARY: ".toList ++ ('T' :: "rade talks".toList) ++
          "\nSENTIMENT: Positive\nIMPACT_SCORE: 12".toList)) = some r ∧
      r.summary = pyStrip ('T' :: "rade talks".toList) ∧
      r.sentiment = "Positive".toList) ∧
    (∃ r, analyze_article sampleArticle ConfigOutcome.ok (ModelOutcome.reply
        ("SUMMARY: ".toList ++ [' ', '\t'] ++
          "\nSENTIMENT: Positive\nIMPACT_SCORE: 12".toList)) = some r ∧
      r.summary = "SENTIMENT: Positive\nIMPACT_SCORE: 12".toList) ∧
    (∃ r, analyze_article sampleArticle ConfigOutcome.ok (ModelOutcome.reply
        ("no markers at all".toList)) = some r ∧
      r.summary = "Summary not available.".toList) :=
  ⟨summary_extraction_behavior.2.1 sampleArticle 'T' ("rade talks".toList)
      (by decide) (by decide),
   summary_extraction_behavior.2.2.1 sampleArticle [' ', '\t'] (by decide),
   summary_extraction_behavior.2.2.2 sampleArticle ("no markers at all".toList)
      (by decide) (by decide)⟩

end NewFetch
